import Mathlib

set_option maxRecDepth 100000
set_option maxHeartbeats 2000000

/-!
Verification of the CSV-folder-to-Excel converter
(`csv_to_excel_converter.py`, function `process_folder_csvs`).

The program is shallowly embedded: pandas data frames become `DataFrame`
(ordered column names plus rows of cells), the filesystem, clock and the
per-file outcome of `pd.read_csv` are supplied by an `Env`, and the whole
pipeline is the function `process_folder_csvs` below, which mirrors the
Python source line by line.  Exceptions are modelled with `Except`: the
per-file `try/except` handlers turn failures into printed messages, while
a failure while finalizing the `pd.ExcelWriter` context (disk full and the
like) is not caught in the source and therefore propagates as
`Except.error`.
-/

/-- A spreadsheet / data-frame cell: either literal text or a number.
Timestamp columns are written as literal text (`Cell.text`), matching
`df[col] = "<formatted string>"` in the source. -/
inductive Cell where
  | text : String → Cell
  | num : Int → Cell
deriving DecidableEq, Repr, Inhabited

/-- A pandas `DataFrame`: an ordered list of column names and the rows,
each row an ordered list of cells. -/
structure DataFrame where
  cols : List String
  rows : List (List Cell)
deriving DecidableEq, Repr, Inhabited

/-- A data frame is rectangular: every row has one cell per column.
`pd.read_csv` always produces rectangular frames. -/
def DataFrame.Rect (df : DataFrame) : Prop :=
  ∀ r ∈ df.rows, r.length = df.cols.length

instance (df : DataFrame) : Decidable df.Rect := by
  unfold DataFrame.Rect; infer_instance

/-- The values `range(1, len(df) + 1)` used for the sequence-number column:
`[1, 2, ..., n]` as numeric cells. -/
def seqnoValues (n : Nat) : List Cell :=
  (List.range' 1 n).map (fun k : Nat => Cell.num (Int.ofNat k))

/-- `df.insert(0, name, vals)` from pandas: insert a new first column.
pandas raises `ValueError("cannot insert <name>, already exists")` when a
column of that name is already present (`allow_duplicates` defaults to
`False`); the error is modelled with `Except.error` carrying `str(e)`. -/
def DataFrame.insertCol0 (df : DataFrame) (name : String) (vals : List Cell) :
    Except String DataFrame :=
  if df.cols.contains name then
    Except.error ("cannot insert " ++ name ++ ", already exists")
  else
    Except.ok { cols := name :: df.cols,
                rows := (vals.zip df.rows).map (fun q => q.1 :: q.2) }

/-- `df[name] = v` from pandas with a scalar right-hand side: if the column
exists, its values are overwritten in place (the column keeps its
position); otherwise a new column is appended on the right. -/
def DataFrame.setCol (df : DataFrame) (name : String) (v : Cell) : DataFrame :=
  match df.cols.findIdx? (· == name) with
  | some i => { cols := df.cols, rows := df.rows.map (fun r => r.set i v) }
  | none => { cols := df.cols ++ [name], rows := df.rows.map (fun r => r ++ [v]) }

/-- The values of the column called `name` (first occurrence), read off row
by row; `[]` when there is no such column. -/
def DataFrame.colNamed (df : DataFrame) (name : String) : List Cell :=
  match df.cols.findIdx? (· == name) with
  | some i => df.rows.map (fun r => r.getD i (Cell.text ""))
  | none => []

/-- A wall-clock reading, as produced by `datetime.now()`. -/
structure DateTime where
  year : Nat
  month : Nat
  day : Nat
  hour : Nat
  minute : Nat
  second : Nat
deriving DecidableEq, Repr, Inhabited

/-- Zero-pad a number to two digits, as the `strftime` codes `%m`, `%d`,
`%I`, `%M`, `%S`, `%H` do. -/
def pad2 (n : Nat) : String :=
  if n < 10 then "0" ++ toString n else toString n

/-- Zero-pad a year to four digits (`strftime` code `%Y`). -/
def pad4 (n : Nat) : String :=
  if n < 10 then "000" ++ toString n
  else if n < 100 then "00" ++ toString n
  else if n < 1000 then "0" ++ toString n
  else toString n

/-- The 12-hour-clock hour (`strftime` code `%I` before padding):
hours 0 and 12 display as 12, hour 13 as 1, and so on. -/
def hour12 (h : Nat) : Nat :=
  if h % 12 = 0 then 12 else h % 12

/-- The `%p` code of `strftime`: uppercase AM/PM. -/
def meridiem (h : Nat) : String :=
  if h < 12 then "AM" else "PM"

/-- `current_time.strftime("%Y-%m-%d %I:%M%p")`: the per-file column
timestamp.  Note `%I` is the zero-padded two-digit 12-hour clock. -/
def strftimeColumn (t : DateTime) : String :=
  pad4 t.year ++ "-" ++ pad2 t.month ++ "-" ++ pad2 t.day ++ " " ++
    pad2 (hour12 t.hour) ++ ":" ++ pad2 t.minute ++ meridiem t.hour

/-- `current_time.strftime("%Y%m%d-%H%M%S")`: the timestamp embedded in the
output workbook's file name. -/
def strftimeFile (t : DateTime) : String :=
  pad4 t.year ++ pad2 t.month ++ pad2 t.day ++ "-" ++
    pad2 t.hour ++ pad2 t.minute ++ pad2 t.second

/-- `os.path.join(dir, name)` for a relative `name`: insert a `/` unless
`dir` already ends with one. -/
def joinPath (dir name : String) : String :=
  (if dir.toList.getLast? == some '/' then dir else dir ++ "/") ++ name

/-- `os.path.basename(p)`: the part of the path after the last `/`. -/
def basename (p : String) : String :=
  String.mk ((p.toList.reverse.takeWhile (fun c => c != '/')).reverse)

/-- `os.path.splitext(name)[0]` for a plain file name: drop the extension
at the last dot, except that a name consisting of leading dots only (such
as `.bashrc`) keeps them, exactly as CPython's `splitext` does. -/
def splitextStem (name : String) : String :=
  let cs := name.toList
  match cs.reverse.findIdx? (fun c => c == '.') with
  | none => name
  | some r =>
    let d := cs.length - 1 - r
    if (cs.take d).all (fun c => c == '.') then name else String.mk (cs.take d)

/-- The sheet name for an input file: base name without extension, cut to
the 31-character Excel limit (`sheet_name[:31]` in the source). -/
def sheetNameFor (path : String) : String :=
  (splitextStem (basename path)).take 31

/-- Whether a directory entry is matched by `glob.glob(folder + "/*.csv")`:
the name ends in `.csv`, and glob never matches hidden files (a leading
dot is not matched by `*`). -/
def matchesCsvPattern (name : String) : Bool :=
  ['.', 'c', 's', 'v'].isSuffixOf name.toList && name.toList.head? != some '.'

/-- Lexicographic (code-point) order on character lists, as a boolean:
this is the order Python's `<` puts on strings. -/
def charListLeb : List Char → List Char → Bool
  | [], _ => true
  | _ :: _, [] => false
  | a :: as, b :: bs => if a = b then charListLeb as bs else decide (a < b)

/-- Python's `<=` on strings: code-point lexicographic order. -/
def strLeb (a b : String) : Bool :=
  charListLeb a.toList b.toList

/-- One insertion step of a stable sort by `strLeb`. -/
def insertSorted (x : String) : List String → List String
  | [] => [x]
  | y :: ys => if strLeb x y then x :: y :: ys else y :: insertSorted x ys

/-- `csv_files.sort()` from the source: Python's sort on a list of
strings, i.e. the unique stable reordering that is sorted by code-point
lexicographic order (rendered here as an insertion sort). -/
def sortStrings : List String → List String
  | [] => []
  | x :: xs => insertSorted x (sortStrings xs)

/-- What happened when the converter tried `pd.read_csv` on one file:
success with a frame, `FileNotFoundError`, `pd.errors.EmptyDataError`, or
any other exception (carrying `str(e)`). -/
inductive LoadResult where
  | ok : DataFrame → LoadResult
  | fileNotFound : LoadResult
  | emptyData : LoadResult
  | failure : String → LoadResult
deriving DecidableEq, Repr, Inhabited

/-- What the argument path refers to, distinguishing the cases that
`os.path.exists` and `glob` care about. -/
inductive PathKind where
  | directory : PathKind
  | file : PathKind
  | missing : PathKind
deriving DecidableEq, Repr

/-- The world a run of `process_folder_csvs` observes: the argument path
and what it refers to, the entry names the directory contains, the result
of loading each path, and the wall clock (read once before the loop for
the output file name, and once per processed file for the timestamp
columns).  `finalizeFailure` is the I/O exception, if any, raised while
the `pd.ExcelWriter` context saves a non-empty workbook (disk full,
permission denied); saving a workbook with no sheet at all always raises
`IndexError("At least one sheet must be visible")` before any I/O, which
the pipeline itself models. -/
structure Env where
  folder : String
  pathKind : PathKind
  entries : List String
  load : String → LoadResult
  loadClock : String → DateTime
  startClock : DateTime
  finalizeFailure : Option String

/-- The paths returned by `glob.glob(os.path.join(folder_path, "*.csv"))`:
nothing unless the path is a directory, otherwise every matching entry
name joined onto the folder. -/
def csvFilesOf (env : Env) : List String :=
  if env.pathKind = PathKind.directory then
    (env.entries.filter matchesCsvPattern).map (joinPath env.folder)
  else []

/-- The discovered paths after `csv_files.sort()`. -/
def sortedFiles (env : Env) : List String :=
  sortStrings (csvFilesOf env)

/-- The paths kept after the cap: `csv_files[:3]` when more than three
files were discovered. -/
def retainedFiles (env : Env) : List String :=
  if (sortedFiles env).length > 3 then (sortedFiles env).take 3 else sortedFiles env

/-- The output workbook's file name,
`f"test-data-load-{timestamp}.xlsx"`. -/
def excelFileName (env : Env) : String :=
  "test-data-load-" ++ strftimeFile env.startClock ++ ".xlsx"

/-- The output workbook's path, `os.path.join(folder_path, excel_filename)`. -/
def excelPath (env : Env) : String :=
  joinPath env.folder (excelFileName env)

/-- The single output artifact: an ordered list of named sheets. -/
structure Workbook where
  sheets : List (String × DataFrame)
deriving DecidableEq, Repr, Inhabited

/-- One worksheet row after a second frame's row is written over an
existing one: the new cells land first, and old cells beyond the new
row's width survive, because writing never clears a worksheet. -/
def overlayRow (old new : List Cell) : List Cell :=
  new ++ old.drop new.length

/-- Cell-by-cell overlay of a frame's grid onto an existing grid, row by
row; old rows beyond the new frame survive unchanged. -/
def overlayRows : List (List Cell) → List (List Cell) → List (List Cell)
  | old, [] => old
  | [], new => new
  | o :: os, n :: ns => overlayRow o n :: overlayRows os ns

/-- A frame written into a worksheet that already holds an earlier frame:
header and data cells are overwritten from cell A1 on, and stale old
cells outside the new frame's rectangle remain. -/
def overlayFrame (old new : DataFrame) : DataFrame :=
  ⟨new.cols ++ old.cols.drop new.cols.length, overlayRows old.rows new.rows⟩

/-- `df.to_excel(writer, sheet_name=nm, index=False)` on a mode-`w`
`pd.ExcelWriter`: pandas looks `nm` up in `writer.sheets` and, when a
sheet of that name already exists, writes into that same worksheet (the
new cells overlay the earlier frame's cells); only otherwise does it
create a new sheet at the end.  Two stems that truncate to the same
31-character sheet name therefore merge into one sheet. -/
def writeSheet (sheets : List (String × DataFrame)) (nm : String) (df : DataFrame) :
    List (String × DataFrame) :=
  if sheets.any (fun s => s.1 == nm) then
    sheets.map (fun s => if s.1 == nm then (s.1, overlayFrame s.2 df) else s)
  else
    sheets ++ [(nm, df)]

/-- Apply one per-file outcome to the writer's sheets: a skipped file
leaves the workbook unchanged, a produced frame is written to its
sheet. -/
def applyWrite (sheets : List (String × DataFrame)) :
    Option (String × DataFrame) → List (String × DataFrame)
  | some s => writeSheet sheets s.1 s.2
  | none => sheets

/-- The body of the per-file loop, covering `pd.read_csv` through
`df.to_excel` together with the three `except` handlers: the result is
the sheet to add (none when this file was skipped) and the line printed
for this file. -/
def processFile (env : Env) (path : String) : Option (String × DataFrame) × String :=
  match env.load path with
  | LoadResult.fileNotFound =>
      (none, "Error: File \x27" ++ path ++ "\x27 not found")
  | LoadResult.emptyData =>
      (none, "Error: File \x27" ++ path ++ "\x27 is empty")
  | LoadResult.failure e =>
      (none, "Error processing \x27" ++ path ++ "\x27: " ++ e)
  | LoadResult.ok df =>
      match df.insertCol0 "seqno" (seqnoValues df.rows.length) with
      | Except.error e =>
          (none, "Error processing \x27" ++ path ++ "\x27: " ++ e)
      | Except.ok df1 =>
          let ts := strftimeColumn (env.loadClock path)
          let df2 := (df1.setCol "create_ts" (Cell.text ts)).setCol "updt_ts" (Cell.text ts)
          let nm := sheetNameFor path
          (some (nm, df2),
           "Successfully added \x27" ++ basename path ++ "\x27 to sheet \x27" ++ nm ++
             "\x27 with " ++ toString df2.rows.length ++ " rows and timestamp: " ++ ts)

/-- Everything a run produces when it returns normally: the lines printed
to standard output, in order, and the workbook file written (path and
contents), if the run reached the writing stage. -/
structure RunOutput where
  messages : List String
  written : Option (String × Workbook)
deriving DecidableEq, Repr, Inhabited

/-- The converter, `process_folder_csvs(folder_path)`.  A normal return is
`Except.ok`; `Except.error` is an exception propagating to the caller,
which in the source can only come from finalizing the `pd.ExcelWriter`
context (that code is outside every `try`). -/
def process_folder_csvs (env : Env) : Except String RunOutput :=
  if env.pathKind = PathKind.missing then
    Except.ok { messages := ["Error: Folder \x27" ++ env.folder ++ "\x27 does not exist"],
                written := none }
  else if (csvFilesOf env).length = 0 then
    Except.ok { messages := ["No CSV files found in folder: " ++ env.folder],
                written := none }
  else
    let sorted := sortedFiles env
    let header := ("Found " ++ toString sorted.length ++ " CSV files:")
      :: sorted.map (fun f => "  - " ++ basename f)
    let capMsgs :=
      if sorted.length > 3 then
        ["\nUsing first 3 CSV files (found " ++ toString sorted.length ++ " total)"]
      else []
    let folded := (retainedFiles env).foldl
      (fun (acc : List (String × DataFrame) × List String) p =>
        let r := processFile env p
        (applyWrite acc.1 r.1, acc.2 ++ [r.2]))
      ([], [])
    if folded.1.isEmpty then
      Except.error "At least one sheet must be visible"
    else
      match env.finalizeFailure with
      | some e => Except.error e
      | none =>
          Except.ok { messages := header ++ capMsgs ++ folded.2 ++
                        ["Excel file created at: " ++ excelPath env],
                      written := some (excelPath env, Workbook.mk folded.1) }

/-- The sheet list the writer holds after the loop: every retained
file's outcome applied in order. -/
def runSheets (env : Env) : List (String × DataFrame) :=
  ((retainedFiles env).map (fun p => (processFile env p).1)).foldl applyWrite []

/-- Whether loading `path` in `env` succeeds with a frame that has no
column already called `seqno` (so that the sequence-number insert cannot
raise). -/
def loadsCleanly (env : Env) (path : String) : Bool :=
  match env.load path with
  | LoadResult.ok df => !(df.cols.contains "seqno")
  | _ => false

/-!  Basic facts about the embedded pandas operations. -/

deriving instance DecidableEq for Except

theorem contains_eq_false_of_not_mem {l : List String} {a : String} (h : a ∉ l) :
    l.contains a = false := by
  rw [List.contains_eq_any_beq, List.any_eq_false]
  intro x hx hbeq
  exact h ((eq_of_beq hbeq) ▸ hx)

theorem contains_eq_true_of_mem {l : List String} {a : String} (h : a ∈ l) :
    l.contains a = true := by
  rw [List.contains_eq_any_beq, List.any_eq_true]
  exact ⟨a, h, by simp⟩

theorem findIdx?_beq_eq_none {l : List String} {a : String} (h : a ∉ l) :
    l.findIdx? (· == a) = none := by
  rw [List.findIdx?_eq_none_iff]
  intro x hx
  rw [beq_eq_false_iff_ne]
  exact fun he => h (he ▸ hx)

theorem findIdx?_beq_append_self {l : List String} {a : String} (h : a ∉ l) :
    (l ++ [a]).findIdx? (· == a) = some l.length := by
  rw [List.findIdx?_append, findIdx?_beq_eq_none h]
  simp

theorem insertCol0_eq_ok {df : DataFrame} {name : String} {vals : List Cell}
    (h : name ∉ df.cols) :
    df.insertCol0 name vals =
      Except.ok ⟨name :: df.cols, (vals.zip df.rows).map (fun q => q.1 :: q.2)⟩ := by
  unfold DataFrame.insertCol0
  rw [contains_eq_false_of_not_mem h]
  rfl

theorem insertCol0_eq_error {df : DataFrame} {name : String} {vals : List Cell}
    (h : name ∈ df.cols) :
    df.insertCol0 name vals =
      Except.error ("cannot insert " ++ name ++ ", already exists") := by
  unfold DataFrame.insertCol0
  rw [contains_eq_true_of_mem h]
  rfl

theorem setCol_rows_length (df : DataFrame) (name : String) (v : Cell) :
    (df.setCol name v).rows.length = df.rows.length := by
  unfold DataFrame.setCol
  cases df.cols.findIdx? (· == name) <;> simp

theorem setCol_cols_of_not_mem {df : DataFrame} {name : String} (v : Cell)
    (h : name ∉ df.cols) :
    (df.setCol name v).cols = df.cols ++ [name] := by
  unfold DataFrame.setCol
  rw [findIdx?_beq_eq_none h]

theorem setCol_cols_of_mem {df : DataFrame} {name : String} (v : Cell)
    (h : name ∈ df.cols) :
    (df.setCol name v).cols = df.cols := by
  unfold DataFrame.setCol
  cases hf : df.cols.findIdx? (· == name) with
  | none =>
      rw [List.findIdx?_eq_none_iff] at hf
      have := hf name h
      simp at this
  | some i => rfl

theorem setCol_rect {df : DataFrame} (name : String) (v : Cell) (h : df.Rect) :
    (df.setCol name v).Rect := by
  unfold DataFrame.setCol
  cases df.cols.findIdx? (· == name) with
  | none =>
      intro r hr
      simp only [List.mem_map] at hr
      obtain ⟨r0, hr0, rfl⟩ := hr
      simp [h r0 hr0]
  | some i =>
      intro r hr
      simp only [List.mem_map] at hr
      obtain ⟨r0, hr0, rfl⟩ := hr
      simp [h r0 hr0]

theorem colNamed_setCol_self {df : DataFrame} (name : String) (v : Cell)
    (hrect : df.Rect) :
    (df.setCol name v).colNamed name = List.replicate df.rows.length v := by
  unfold DataFrame.setCol
  cases hf : df.cols.findIdx? (· == name) with
  | some i =>
      have hi : i < df.cols.length := (List.findIdx?_eq_some_iff_findIdx_eq.mp hf).1
      unfold DataFrame.colNamed
      simp only [hf, List.map_map]
      rw [List.eq_replicate_iff]
      refine ⟨by simp, ?_⟩
      intro b hb
      simp only [List.mem_map, Function.comp] at hb
      obtain ⟨r, hr, rfl⟩ := hb
      have hir : i < r.length := by rw [hrect r hr]; exact hi
      simp [List.getElem?_set_self hir]
  | none =>
      have hnm : name ∉ df.cols := by
        intro hmem
        rw [List.findIdx?_eq_none_iff] at hf
        have := hf name hmem
        simp at this
      unfold DataFrame.colNamed
      simp only [findIdx?_beq_append_self hnm, List.map_map]
      rw [List.eq_replicate_iff]
      refine ⟨by simp, ?_⟩
      intro b hb
      simp only [List.mem_map, Function.comp] at hb
      obtain ⟨r, hr, rfl⟩ := hb
      have hlen : r.length = df.cols.length := hrect r hr
      simp [List.getElem?_append_right (le_of_eq hlen.symm), hlen]

theorem colNamed_setCol_other {df : DataFrame} {m name : String} (v : Cell)
    (hne : m ≠ name) (hrect : df.Rect) :
    (df.setCol name v).colNamed m = df.colNamed m := by
  unfold DataFrame.setCol
  cases hf : df.cols.findIdx? (· == name) with
  | some i =>
      have hi : i < df.cols.length := (List.findIdx?_eq_some_iff_findIdx_eq.mp hf).1
      have hcols : df.cols[i] = name := by
        obtain ⟨h1, h2, _⟩ := List.findIdx?_eq_some_iff_getElem.mp hf
        exact eq_of_beq h2
      unfold DataFrame.colNamed
      simp only
      cases hm : df.cols.findIdx? (· == m) with
      | none => rfl
      | some j =>
          have hj : j < df.cols.length := (List.findIdx?_eq_some_iff_findIdx_eq.mp hm).1
          have hcolsm : df.cols[j] = m := by
            obtain ⟨h1, h2, _⟩ := List.findIdx?_eq_some_iff_getElem.mp hm
            exact eq_of_beq h2
          have hij : i ≠ j := by
            intro he
            subst he
            exact hne (hcolsm.symm.trans hcols)
          simp only [List.map_map]
          apply List.map_congr_left
          intro r hr
          simp [Function.comp, List.getElem?_set_ne hij]
  | none =>
      have hm1 : ([name].findIdx? (· == m)) = none := by
        simp [List.findIdx?_cons]
        exact fun h => hne (h ▸ rfl)
      unfold DataFrame.colNamed
      simp only [List.findIdx?_append, hm1, Option.map_none, Option.or_none]
      cases hm : df.cols.findIdx? (· == m) with
      | none => rfl
      | some j =>
          have hj : j < df.cols.length := (List.findIdx?_eq_some_iff_findIdx_eq.mp hm).1
          simp only [List.map_map]
          apply List.map_congr_left
          intro r hr
          have hjr : j < r.length := by rw [hrect r hr]; exact hj
          simp [Function.comp, List.getElem?_append_left hjr]

/-- The frame after a successful `df.insert(0, "seqno", range(1, len(df)+1))`. -/
def insertedFrame (df : DataFrame) : DataFrame :=
  ⟨"seqno" :: df.cols, ((seqnoValues df.rows.length).zip df.rows).map (fun q => q.1 :: q.2)⟩

/-- The fully augmented frame that the loop writes to a sheet: sequence
numbers in front, then both timestamp columns set to the same string. -/
def augmentFrame (df : DataFrame) (ts : String) : DataFrame :=
  ((insertedFrame df).setCol "create_ts" (Cell.text ts)).setCol "updt_ts" (Cell.text ts)

theorem length_seqnoValues (n : Nat) : (seqnoValues n).length = n := by
  unfold seqnoValues
  rw [List.length_map, List.length_range']

theorem insertedFrame_rows_length (df : DataFrame) :
    (insertedFrame df).rows.length = df.rows.length := by
  simp [insertedFrame, length_seqnoValues]

theorem augmentFrame_rows_length (df : DataFrame) (ts : String) :
    (augmentFrame df ts).rows.length = df.rows.length := by
  unfold augmentFrame
  rw [setCol_rows_length, setCol_rows_length, insertedFrame_rows_length]

theorem insertedFrame_rows_getElem {df : DataFrame} {j : Nat} {r : List Cell}
    (h : df.rows[j]? = some r) :
    (insertedFrame df).rows[j]? = some (Cell.num (j + 1) :: r) := by
  have hj : j < df.rows.length := by
    by_contra hlt
    rw [List.getElem?_eq_none (Nat.le_of_not_lt hlt)] at h
    cases h
  have hv : (seqnoValues df.rows.length)[j]? = some (Cell.num (j + 1)) := by
    unfold seqnoValues
    rw [List.getElem?_map, List.getElem?_range' 1 1 hj]
    have he : 1 + 1 * j = j + 1 := by omega
    show some (Cell.num (Int.ofNat (1 + 1 * j))) = some (Cell.num (Int.ofNat (j + 1)))
    rw [he]
  have hz : ((seqnoValues df.rows.length).zip df.rows)[j]? = some (Cell.num (j + 1), r) :=
    List.getElem?_zip_eq_some.mpr ⟨hv, h⟩
  unfold insertedFrame
  rw [List.getElem?_map, hz]
  rfl

theorem insertedFrame_rect {df : DataFrame} (h : df.Rect) :
    (insertedFrame df).Rect := by
  intro r hr
  unfold insertedFrame at hr
  simp only [List.mem_map] at hr
  obtain ⟨q, hq, rfl⟩ := hr
  have := List.of_mem_zip hq
  simp [insertedFrame, h q.2 this.2]

theorem augmentFrame_rect {df : DataFrame} (ts : String) (h : df.Rect) :
    (augmentFrame df ts).Rect :=
  setCol_rect _ _ (setCol_rect _ _ (insertedFrame_rect h))

theorem processFile_eq_of_clean {env : Env} {path : String} {df : DataFrame}
    (hload : env.load path = LoadResult.ok df) (hseq : "seqno" ∉ df.cols) :
    processFile env path =
      (some (sheetNameFor path, augmentFrame df (strftimeColumn (env.loadClock path))),
       "Successfully added \x27" ++ basename path ++ "\x27 to sheet \x27" ++ sheetNameFor path ++
         "\x27 with " ++
         toString (augmentFrame df (strftimeColumn (env.loadClock path))).rows.length ++
         " rows and timestamp: " ++ strftimeColumn (env.loadClock path)) := by
  unfold processFile
  rw [hload]
  dsimp only
  rw [insertCol0_eq_ok hseq]
  dsimp only [augmentFrame, insertedFrame]

theorem processFile_eq_of_seqno {env : Env} {path : String} {df : DataFrame}
    (hload : env.load path = LoadResult.ok df) (hseq : "seqno" ∈ df.cols) :
    processFile env path =
      (none, "Error processing \x27" ++ path ++ "\x27: " ++ "cannot insert seqno, already exists") := by
  unfold processFile
  rw [hload]
  dsimp only
  rw [insertCol0_eq_error hseq]
  rfl

theorem processFile_some_inv {env : Env} {path nm : String} {df2 : DataFrame} {m : String}
    (h : processFile env path = (some (nm, df2), m)) :
    ∃ df, env.load path = LoadResult.ok df ∧ "seqno" ∉ df.cols ∧
      nm = sheetNameFor path ∧
      df2 = augmentFrame df (strftimeColumn (env.loadClock path)) := by
  cases hl : env.load path with
  | ok df =>
      by_cases hs : "seqno" ∈ df.cols
      · rw [processFile_eq_of_seqno hl hs] at h
        simp at h
      · rw [processFile_eq_of_clean hl hs] at h
        simp only [Prod.mk.injEq, Option.some.injEq] at h
        exact ⟨df, rfl, hs, h.1.1.symm, h.1.2.symm⟩
  | fileNotFound => unfold processFile at h; rw [hl] at h; simp at h
  | emptyData => unfold processFile at h; rw [hl] at h; simp at h
  | failure e => unfold processFile at h; rw [hl] at h; simp at h

theorem foldl_loop (env : Env) (l : List String)
    (acc : List (String × DataFrame) × List String) :
    l.foldl
      (fun (acc : List (String × DataFrame) × List String) p =>
        let r := processFile env p
        (applyWrite acc.1 r.1, acc.2 ++ [r.2])) acc
      = ((l.map (fun p => (processFile env p).1)).foldl applyWrite acc.1,
         acc.2 ++ l.map (fun p => (processFile env p).2)) := by
  induction l generalizing acc with
  | nil => simp
  | cons p ps ih =>
      rw [List.foldl_cons, ih, List.map_cons, List.map_cons, List.foldl_cons]
      simp [List.append_assoc]

theorem writeSheet_eq_append {sheets : List (String × DataFrame)} {nm : String}
    {df : DataFrame} (h : ∀ x ∈ sheets, x.1 ≠ nm) :
    writeSheet sheets nm df = sheets ++ [(nm, df)] := by
  unfold writeSheet
  have hany : sheets.any (fun s => s.1 == nm) = false := by
    rw [List.any_eq_false]
    intro x hx
    simp only [beq_iff_eq]
    exact h x hx
  rw [hany]
  rfl

theorem foldl_applyWrite_eq_append :
    ∀ (l : List (Option (String × DataFrame))) (acc : List (String × DataFrame)),
      ((l.filterMap id).map Prod.fst).Nodup →
      (∀ x ∈ acc, ∀ nm ∈ (l.filterMap id).map Prod.fst, x.1 ≠ nm) →
      l.foldl applyWrite acc = acc ++ l.filterMap id := by
  intro l
  induction l with
  | nil =>
      intro acc _ _
      simp
  | cons o t ih =>
      intro acc hnd hdis
      cases o with
      | none =>
          have hfm : (none :: t).filterMap (@id (Option (String × DataFrame)))
              = t.filterMap id := List.filterMap_cons_none rfl
          rw [hfm] at hnd hdis
          rw [List.foldl_cons]
          rw [show applyWrite acc none = acc from rfl]
          rw [ih acc hnd hdis, hfm]
      | some s =>
          have hfm : (some s :: t).filterMap (@id (Option (String × DataFrame)))
              = s :: t.filterMap id := List.filterMap_cons_some rfl
          rw [hfm] at hnd hdis
          rw [List.map_cons, List.nodup_cons] at hnd
          have hx : ∀ x ∈ acc, x.1 ≠ s.1 := by
            intro x hxm
            exact hdis x hxm s.1 (List.mem_cons_self _ _)
          have hdis2 : ∀ x ∈ acc ++ [s],
              ∀ nm ∈ (t.filterMap id).map Prod.fst, x.1 ≠ nm := by
            intro x hxm nm hnm
            rcases List.mem_append.mp hxm with hxa | hxs
            · exact hdis x hxa nm (List.mem_cons_of_mem _ hnm)
            · rw [List.mem_singleton] at hxs
              subst hxs
              intro he
              apply hnd.1
              rw [he]
              exact hnm
          rw [List.foldl_cons]
          rw [show applyWrite acc (some s) = writeSheet acc s.1 s.2 from rfl,
            writeSheet_eq_append hx]
          rw [ih (acc ++ [s]) hnd.2 hdis2, hfm]
          simp

theorem map_fst_filterMap_of_named {env : Env} {l : List String}
    (h : ∀ p ∈ l, ∃ d, (processFile env p).1 = some (sheetNameFor p, d)) :
    ((l.filterMap (fun p => (processFile env p).1)).map Prod.fst)
      = l.map (fun p => sheetNameFor p) := by
  induction l with
  | nil => rfl
  | cons p t ih =>
      obtain ⟨d, hd⟩ := h p (List.mem_cons_self _ _)
      rw [show List.filterMap (fun q => (processFile env q).1) (p :: t)
            = (sheetNameFor p, d) :: List.filterMap (fun q => (processFile env q).1) t by
          rw [List.filterMap_cons, hd]]
      rw [List.map_cons, List.map_cons,
        ih (fun q hq => h q (List.mem_cons_of_mem _ hq))]

theorem process_eq_of_missing {env : Env} (h : env.pathKind = PathKind.missing) :
    process_folder_csvs env = Except.ok
      { messages := ["Error: Folder \x27" ++ env.folder ++ "\x27 does not exist"],
        written := none } := by
  unfold process_folder_csvs
  rw [if_pos h]

theorem process_eq_of_noFiles {env : Env} (hk : env.pathKind ≠ PathKind.missing)
    (h0 : (csvFilesOf env).length = 0) :
    process_folder_csvs env = Except.ok
      { messages := ["No CSV files found in folder: " ++ env.folder],
        written := none } := by
  unfold process_folder_csvs
  rw [if_neg hk, if_pos h0]

theorem process_eq_of_emptySheets {env : Env} (hk : env.pathKind ≠ PathKind.missing)
    (hne : (csvFilesOf env).length ≠ 0) (hs : runSheets env = []) :
    process_folder_csvs env = Except.error "At least one sheet must be visible" := by
  unfold process_folder_csvs
  rw [if_neg hk, if_neg hne]
  dsimp only
  rw [foldl_loop]
  dsimp only
  have hs2 : ((retainedFiles env).map (fun p => (processFile env p).1)).foldl
      applyWrite [] = [] := hs
  rw [hs2]
  rfl

theorem process_eq_of_finalizeFail {env : Env} {e : String}
    (hk : env.pathKind ≠ PathKind.missing) (hne : (csvFilesOf env).length ≠ 0)
    (hs : runSheets env ≠ []) (hf : env.finalizeFailure = some e) :
    process_folder_csvs env = Except.error e := by
  unfold process_folder_csvs
  rw [if_neg hk, if_neg hne]
  dsimp only
  rw [foldl_loop]
  dsimp only
  cases hsv : runSheets env with
  | nil => exact absurd hsv hs
  | cons s t =>
      have hs2 : ((retainedFiles env).map (fun p => (processFile env p).1)).foldl
          applyWrite [] = s :: t := hsv
      rw [hs2, hf]
      rfl

theorem process_eq_of_files {env : Env} (hk : env.pathKind ≠ PathKind.missing)
    (hne : (csvFilesOf env).length ≠ 0) (hs : runSheets env ≠ [])
    (hfin : env.finalizeFailure = none) :
    process_folder_csvs env = Except.ok
      { messages :=
          (("Found " ++ toString (sortedFiles env).length ++ " CSV files:")
              :: (sortedFiles env).map (fun f => "  - " ++ basename f)) ++
            (if (sortedFiles env).length > 3 then
              ["\nUsing first 3 CSV files (found " ++ toString (sortedFiles env).length ++ " total)"]
            else []) ++
            (retainedFiles env).map (fun p => (processFile env p).2) ++
            ["Excel file created at: " ++ excelPath env],
        written := some (excelPath env, Workbook.mk (runSheets env)) } := by
  unfold process_folder_csvs
  rw [if_neg hk, if_neg hne]
  dsimp only
  rw [foldl_loop]
  dsimp only
  cases hsv : runSheets env with
  | nil => exact absurd hsv hs
  | cons s t =>
      have hs2 : ((retainedFiles env).map (fun p => (processFile env p).1)).foldl
          applyWrite [] = s :: t := hsv
      rw [hs2, hfin]
      simp

/-!  Facts about the sort and about path strings. -/

theorem charListLeb_append_left (p a b : List Char) :
    charListLeb (p ++ a) (p ++ b) = charListLeb a b := by
  induction p with
  | nil => rfl
  | cons c cs ih => simp [charListLeb, ih]

theorem charListLeb_total (a b : List Char) :
    charListLeb a b = true ∨ charListLeb b a = true := by
  induction a generalizing b with
  | nil => exact Or.inl rfl
  | cons x xs ih =>
      cases b with
      | nil => exact Or.inr rfl
      | cons y ys =>
          by_cases hxy : x = y
          · subst hxy
            simpa [charListLeb] using ih ys
          · rcases lt_or_gt_of_ne hxy with hlt | hgt
            · exact Or.inl (by simp [charListLeb, hxy, hlt])
            · refine Or.inr (by simp [charListLeb, Ne.symm hxy, hgt])

theorem strLeb_total (a b : String) : strLeb a b = true ∨ strLeb b a = true :=
  charListLeb_total a.toList b.toList

theorem strLeb_append_left (d a b : String) :
    strLeb (d ++ a) (d ++ b) = strLeb a b := by
  show charListLeb (d.toList ++ a.toList) (d.toList ++ b.toList)
    = charListLeb a.toList b.toList
  exact charListLeb_append_left _ _ _

theorem strLeb_join (dir a b : String) :
    strLeb (joinPath dir a) (joinPath dir b) = strLeb a b := by
  unfold joinPath
  exact strLeb_append_left _ a b

theorem insertSorted_map_join (dir x : String) (l : List String) :
    (insertSorted x l).map (joinPath dir)
      = insertSorted (joinPath dir x) (l.map (joinPath dir)) := by
  induction l with
  | nil => rfl
  | cons y ys ih =>
      simp only [insertSorted, List.map_cons, strLeb_join]
      cases h : strLeb x y with
      | false => simp [h, ih]
      | true => simp [h]

theorem sortStrings_map_join (dir : String) (l : List String) :
    sortStrings (l.map (joinPath dir)) = (sortStrings l).map (joinPath dir) := by
  induction l with
  | nil => rfl
  | cons x xs ih =>
      simp only [List.map_cons, sortStrings, ih, insertSorted_map_join]

theorem insertSorted_perm (x : String) (l : List String) :
    List.Perm (insertSorted x l) (x :: l) := by
  induction l with
  | nil => exact List.Perm.refl _
  | cons y ys ih =>
      by_cases hxy : strLeb x y = true
      · rw [show insertSorted x (y :: ys) = x :: y :: ys by simp [insertSorted, hxy]]
      · have hf : strLeb x y = false := Bool.eq_false_iff.mpr hxy
        rw [show insertSorted x (y :: ys) = y :: insertSorted x ys by simp [insertSorted, hf]]
        exact List.Perm.trans (List.Perm.cons y ih) (List.Perm.swap x y ys)

theorem sortStrings_perm (l : List String) : List.Perm (sortStrings l) l := by
  induction l with
  | nil => exact List.Perm.refl _
  | cons x xs ih =>
      exact List.Perm.trans (insertSorted_perm x (sortStrings xs)) (List.Perm.cons x ih)

theorem chain'_insertSorted (x : String) (l : List String)
    (h : l.Chain' (fun a b => strLeb a b = true)) :
    (insertSorted x l).Chain' (fun a b => strLeb a b = true) := by
  induction l with
  | nil => simp [insertSorted]
  | cons y ys ih =>
      by_cases hxy : strLeb x y = true
      · rw [show insertSorted x (y :: ys) = x :: y :: ys by simp [insertSorted, hxy]]
        rw [List.chain'_cons]
        exact ⟨hxy, h⟩
      · have hf : strLeb x y = false := Bool.eq_false_iff.mpr hxy
        have hyx : strLeb y x = true := by
          rcases strLeb_total x y with h1 | h1
          · rw [hf] at h1; cases h1
          · exact h1
        rw [show insertSorted x (y :: ys) = y :: insertSorted x ys by simp [insertSorted, hf]]
        have hh := List.chain'_cons'.mp h
        have htail := ih hh.2
        rw [List.chain'_cons']
        refine ⟨?_, htail⟩
        intro b hb
        cases ys with
        | nil =>
            simp only [insertSorted, Option.mem_def, List.head?_cons, Option.some.injEq] at hb
            rw [← hb]
            exact hyx
        | cons z zs =>
            by_cases hxz : strLeb x z = true
            · rw [show insertSorted x (z :: zs) = x :: z :: zs by
                  simp [insertSorted, hxz]] at hb
              simp only [Option.mem_def, List.head?_cons, Option.some.injEq] at hb
              rw [← hb]
              exact hyx
            · have hfz : strLeb x z = false := Bool.eq_false_iff.mpr hxz
              rw [show insertSorted x (z :: zs) = z :: insertSorted x zs by
                  simp [insertSorted, hfz]] at hb
              simp only [Option.mem_def, List.head?_cons, Option.some.injEq] at hb
              rw [← hb]
              exact hh.1 z rfl

theorem sortStrings_sorted (l : List String) :
    (sortStrings l).Chain' (fun a b => strLeb a b = true) := by
  induction l with
  | nil => trivial
  | cons x xs ih => exact chain'_insertSorted x (sortStrings xs) ih

theorem joinPath_right_injective {dir a b : String}
    (h : joinPath dir a = joinPath dir b) : a = b := by
  unfold joinPath at h
  have h2 := congrArg String.data h
  have h3 : a.data = b.data := List.append_cancel_left h2
  exact String.ext h3

theorem matchesCsvPattern_xlsx_false (s : String) :
    matchesCsvPattern ("test-data-load-" ++ s ++ ".xlsx") = false := by
  have hsuf : ¬ (['.', 'c', 's', 'v'] <:+ ("test-data-load-" ++ s ++ ".xlsx").toList) := by
    intro hs
    obtain ⟨t, ht⟩ := hs
    have h1 := congrArg List.getLast? ht
    have h2 : ("test-data-load-" ++ s ++ ".xlsx").toList
        = ("test-data-load-" ++ s).toList ++ ['.', 'x', 'l', 's', 'x'] := rfl
    rw [h2, List.getLast?_append, List.getLast?_append] at h1
    simp at h1
  have hb : (['.', 'c', 's', 'v'].isSuffixOf ("test-data-load-" ++ s ++ ".xlsx").toList) = false := by
    rw [Bool.eq_false_iff]
    intro hc
    exact hsuf (List.isSuffixOf_iff_suffix.mp hc)
  unfold matchesCsvPattern
  rw [hb, Bool.false_and]

theorem csvFile_ne_excelPath {env : Env} {p : String} (hp : p ∈ csvFilesOf env) :
    p ≠ excelPath env := by
  unfold csvFilesOf at hp
  by_cases hk : env.pathKind = PathKind.directory
  · rw [if_pos hk] at hp
    simp only [List.mem_map, List.mem_filter] at hp
    obtain ⟨nm, ⟨hmem, hmatch⟩, rfl⟩ := hp
    intro he
    have hnm : nm = excelFileName env := joinPath_right_injective he
    rw [hnm] at hmatch
    unfold excelFileName at hmatch
    rw [matchesCsvPattern_xlsx_false] at hmatch
    cases hmatch
  · rw [if_neg hk] at hp
    cases hp

theorem setCol_rows_getElem_append {df : DataFrame} {name : String} {v : Cell}
    {j : Nat} {r : List Cell} (hname : name ∉ df.cols) (hj : df.rows[j]? = some r) :
    (df.setCol name v).rows[j]? = some (r ++ [v]) := by
  unfold DataFrame.setCol
  rw [findIdx?_beq_eq_none hname]
  rw [List.getElem?_map, hj]
  rfl

theorem setCol_cols_head {df : DataFrame} {c : String} (name : String) (v : Cell)
    (hc : df.cols.head? = some c) :
    (df.setCol name v).cols.head? = some c := by
  unfold DataFrame.setCol
  cases df.cols.findIdx? (· == name) with
  | some i => exact hc
  | none =>
      show (df.cols ++ [name]).head? = some c
      rw [List.head?_append_of_ne_nil]
      · exact hc
      · intro hnil
        rw [hnil] at hc
        cases hc

theorem setCol_rows_head {df : DataFrame} {name : String} (v : Cell)
    {j : Nat} {x : Cell} {l : List Cell}
    (hne : df.cols.head? ≠ some name) (hj : df.rows[j]? = some (x :: l)) :
    ∃ l2, (df.setCol name v).rows[j]? = some (x :: l2) := by
  unfold DataFrame.setCol
  cases hf : df.cols.findIdx? (· == name) with
  | none =>
      refine ⟨l ++ [v], ?_⟩
      rw [List.getElem?_map, hj]
      rfl
  | some i =>
      obtain ⟨hilt, hbeq, hprev⟩ := List.findIdx?_eq_some_iff_getElem.mp hf
      have hi0 : i ≠ 0 := by
        intro h0
        subst h0
        apply hne
        rw [List.head?_eq_getElem?, List.getElem?_eq_getElem hilt, eq_of_beq hbeq]
      obtain ⟨i0, rfl⟩ := Nat.exists_eq_succ_of_ne_zero hi0
      refine ⟨l.set i0 v, ?_⟩
      rw [List.getElem?_map, hj]
      rfl

theorem augmentFrame_rows_head {df : DataFrame} {ts : String} {j : Nat} {r : List Cell}
    (hj : df.rows[j]? = some r) :
    ∃ l2, (augmentFrame df ts).rows[j]? = some (Cell.num (j + 1) :: l2) := by
  have h1 := insertedFrame_rows_getElem hj
  have hhead1 : (insertedFrame df).cols.head? ≠ some "create_ts" := by
    unfold insertedFrame
    intro hc
    rw [List.head?_cons] at hc
    exact (show "seqno" ≠ "create_ts" by decide) (Option.some.inj hc)
  obtain ⟨l2, h2⟩ := setCol_rows_head (Cell.text ts) hhead1 h1
  have hgot : ((insertedFrame df).setCol "create_ts" (Cell.text ts)).cols.head?
      = some "seqno" :=
    setCol_cols_head "create_ts" (Cell.text ts)
      (show (insertedFrame df).cols.head? = some "seqno" by
        unfold insertedFrame; rw [List.head?_cons])
  have hhead2 : ((insertedFrame df).setCol "create_ts" (Cell.text ts)).cols.head?
      ≠ some "updt_ts" := by
    rw [hgot]
    intro hc
    exact (show "seqno" ≠ "updt_ts" by decide) (Option.some.inj hc)
  obtain ⟨l3, h3⟩ := setCol_rows_head (Cell.text ts) hhead2 h2
  exact ⟨l3, h3⟩

theorem pad2_length {n : Nat} (h : n < 100) : (pad2 n).length = 2 := by
  interval_cases n <;> rfl

theorem hour12_lt (h : Nat) : hour12 h < 100 := by
  unfold hour12
  by_cases hm : h % 12 = 0
  · rw [if_pos hm]; omega
  · rw [if_neg hm]
    have := Nat.mod_lt h (show 0 < 12 by omega)
    omega

theorem length_filterMap_of_isSome {α β : Type} {f : α → Option β} {l : List α}
    (h : ∀ x ∈ l, (f x).isSome = true) :
    (l.filterMap f).length = l.length := by
  induction l with
  | nil => rfl
  | cons x xs ih =>
      rw [List.filterMap_cons]
      cases hf : f x with
      | none =>
          have := h x (List.mem_cons_self x xs)
          rw [hf] at this
          cases this
      | some b =>
          rw [List.length_cons, ih (fun y hy => h y (List.mem_cons_of_mem x hy)),
            List.length_cons]

theorem string_take_eq_mk (s : String) (n : Nat) :
    s.take n = String.mk (s.data.take n) :=
  String.ext (by rw [String.data_take])

theorem string_length_take_le (s : String) (n : Nat) : (s.take n).length ≤ n := by
  rw [string_take_eq_mk, String.length_mk, List.length_take]
  exact Nat.min_le_left _ _

theorem retainedFiles_eq_take (env : Env) :
    retainedFiles env = (sortedFiles env).take 3 := by
  unfold retainedFiles
  by_cases h : (sortedFiles env).length > 3
  · rw [if_pos h]
  · rw [if_neg h, List.take_of_length_le (by omega)]

/-!  The claims. -/

/-- Environment showing a workbook-finalization failure: an existing
directory with one loadable CSV file, where closing the Excel writer
raises (for instance because the disk is full). -/
def envFinalizeFail : Env :=
  { folder := "d", pathKind := PathKind.directory, entries := ["a.csv"],
    load := fun _ => LoadResult.ok ⟨["x"], [[Cell.num 7]]⟩,
    loadClock := fun _ => ⟨2024, 3, 5, 9, 7, 0⟩,
    startClock := ⟨2024, 1, 2, 3, 4, 5⟩,
    finalizeFailure := some "disk full" }

/-- C1, counterexample: a failure while finalizing the output workbook is
not caught anywhere in `process_folder_csvs`, so the call does not return
normally — the exception propagates to the caller. -/
theorem c1_counterexample_finalize_failure :
    process_folder_csvs envFinalizeFail = Except.error "disk full" := by
  rfl

/-- C1 (amended): the only exceptions `process_folder_csvs` ever
propagates to its caller come from finalizing the output workbook: the
I/O failure raised while the writer saves, or openpyxl's
`IndexError("At least one sheet must be visible")` when no file yielded a
sheet.  Conversely, when the save does not fail and at least one sheet
was written, the call returns normally; every other failure (missing
directory, zero files, per-file load and transform errors) is caught
internally and converted to a printed message. -/
theorem c1_returns_normally_unless_finalize :
    (∀ (env : Env) (e : String), process_folder_csvs env = Except.error e →
        env.finalizeFailure = some e ∨
          (runSheets env = [] ∧ e = "At least one sheet must be visible")) ∧
    (∀ env : Env, env.finalizeFailure = none → runSheets env ≠ [] →
        ∃ out, process_folder_csvs env = Except.ok out) := by
  constructor
  · intro env e h
    by_cases hk : env.pathKind = PathKind.missing
    · rw [process_eq_of_missing hk] at h
      cases h
    by_cases h0 : (csvFilesOf env).length = 0
    · rw [process_eq_of_noFiles hk h0] at h
      cases h
    cases hs : runSheets env with
    | nil =>
        rw [process_eq_of_emptySheets hk h0 hs] at h
        injection h with h2
        exact Or.inr ⟨rfl, h2.symm⟩
    | cons s t =>
        cases hf : env.finalizeFailure with
        | some x =>
            rw [process_eq_of_finalizeFail hk h0 (by rw [hs]; simp) hf] at h
            injection h with h2
            exact Or.inl (by rw [h2])
        | none =>
            rw [process_eq_of_files hk h0 (by rw [hs]; simp) hf] at h
            cases h
  · intro env hfin hs
    by_cases hk : env.pathKind = PathKind.missing
    · exact ⟨_, process_eq_of_missing hk⟩
    by_cases h0 : (csvFilesOf env).length = 0
    · exact ⟨_, process_eq_of_noFiles hk h0⟩
    · exact ⟨_, process_eq_of_files hk h0 hs hfin⟩

/-- Environment for the C1 witness: a run that succeeds end to end. -/
def envCleanRun : Env :=
  { folder := "d", pathKind := PathKind.directory, entries := ["a.csv"],
    load := fun _ => LoadResult.ok ⟨["x"], [[Cell.num 7]]⟩,
    loadClock := fun _ => ⟨2024, 3, 5, 9, 7, 0⟩,
    startClock := ⟨2024, 1, 2, 3, 4, 5⟩,
    finalizeFailure := none }

/-- C1 witness: both directions at concrete runs — a propagated save
failure is exactly the finalization exception, and a clean save returns
normally. -/
theorem c1_witness :
    process_folder_csvs envFinalizeFail = Except.error "disk full" ∧
      (envFinalizeFail.finalizeFailure = some "disk full" ∨
        (runSheets envFinalizeFail = [] ∧
          "disk full" = "At least one sheet must be visible")) ∧
      envCleanRun.finalizeFailure = none ∧ runSheets envCleanRun ≠ [] ∧
      ∃ out, process_folder_csvs envCleanRun = Except.ok out :=
  ⟨by rfl,
   c1_returns_normally_unless_finalize.1 envFinalizeFail "disk full" (by rfl),
   rfl, by decide,
   c1_returns_normally_unless_finalize.2 envCleanRun rfl (by decide)⟩

/-- C2: whenever the argument path is not an existing directory (it is
missing altogether, or it exists but is not a directory), the run prints a
single message that quotes the given path, writes no workbook, and
returns normally. -/
theorem c2_nonexistent_directory (env : Env)
    (h : env.pathKind ≠ PathKind.directory) :
    ∃ msg, process_folder_csvs env
        = Except.ok { messages := [msg], written := none } ∧
      ∃ pre post, msg = pre ++ env.folder ++ post := by
  cases hk : env.pathKind with
  | directory => exact absurd hk h
  | missing =>
      exact ⟨_, process_eq_of_missing hk,
        "Error: Folder \x27", "\x27 does not exist", rfl⟩
  | file =>
      have hk2 : env.pathKind ≠ PathKind.missing := by
        rw [hk]; intro hc; cases hc
      have h0 : (csvFilesOf env).length = 0 := by
        unfold csvFilesOf
        rw [if_neg (by rw [hk]; intro hc; cases hc)]
        rfl
      exact ⟨_, process_eq_of_noFiles hk2 h0,
        "No CSV files found in folder: ", "", (String.append_empty _).symm⟩

/-- Environment for the C2 witness: the path names a regular file, so it
exists but is not a directory. -/
def envNotADirectory : Env :=
  { folder := "notes.txt", pathKind := PathKind.file, entries := [],
    load := fun _ => LoadResult.fileNotFound,
    loadClock := fun _ => ⟨2024, 3, 5, 9, 7, 0⟩,
    startClock := ⟨2024, 1, 2, 3, 4, 5⟩,
    finalizeFailure := none }

/-- C2 witness: the theorem applied to a concrete non-directory path. -/
theorem c2_witness :
    envNotADirectory.pathKind ≠ PathKind.directory ∧
      ∃ msg, process_folder_csvs envNotADirectory
          = Except.ok { messages := [msg], written := none } ∧
        ∃ pre post, msg = pre ++ envNotADirectory.folder ++ post :=
  ⟨by decide, c2_nonexistent_directory envNotADirectory (by decide)⟩

/-- C8: an existing directory with no `*.csv` entries makes the run print
the "no CSV files found" message naming the directory, create no workbook
file, and return without writing anything. -/
theorem c8_no_csv_files (env : Env)
    (hdir : env.pathKind = PathKind.directory)
    (hempty : env.entries.filter matchesCsvPattern = []) :
    process_folder_csvs env
        = Except.ok { messages := ["No CSV files found in folder: " ++ env.folder],
                      written := none } ∧
      ∃ pre, "No CSV files found in folder: " ++ env.folder = pre ++ env.folder := by
  have hk : env.pathKind ≠ PathKind.missing := by
    rw [hdir]; intro hc; cases hc
  have h0 : (csvFilesOf env).length = 0 := by
    unfold csvFilesOf
    rw [if_pos hdir, hempty]
    rfl
  exact ⟨process_eq_of_noFiles hk h0, "No CSV files found in folder: ", rfl⟩

/-- Environment for the C8 witness: a directory whose entries match no
`*.csv` pattern. -/
def envNoCsvEntries : Env :=
  { folder := "d", pathKind := PathKind.directory,
    entries := ["readme.md", "data.xlsx", ".hidden.csv"],
    load := fun _ => LoadResult.fileNotFound,
    loadClock := fun _ => ⟨2024, 3, 5, 9, 7, 0⟩,
    startClock := ⟨2024, 1, 2, 3, 4, 5⟩,
    finalizeFailure := none }

/-- C8 witness: the theorem applied to a concrete CSV-free directory. -/
theorem c8_witness :
    envNoCsvEntries.pathKind = PathKind.directory ∧
      envNoCsvEntries.entries.filter matchesCsvPattern = [] ∧
      (process_folder_csvs envNoCsvEntries
          = Except.ok { messages := ["No CSV files found in folder: " ++ envNoCsvEntries.folder],
                        written := none } ∧
        ∃ pre, "No CSV files found in folder: " ++ envNoCsvEntries.folder
          = pre ++ envNoCsvEntries.folder) :=
  ⟨rfl, by decide, c8_no_csv_files envNoCsvEntries rfl (by decide)⟩

/-- C9: a run never touches the discovered input files — the only file a
normal run can create or write is the single workbook at the computed
path `test-data-load-<YYYYMMDD-HHMMSS>.xlsx` inside the scanned folder,
and that path can never coincide with a discovered `*.csv` input path. -/
theorem c9_only_writes_workbook (env : Env) (out : RunOutput)
    (h : process_folder_csvs env = Except.ok out) :
    (out.written = none ∨ ∃ wb, out.written = some (excelPath env, wb)) ∧
      excelPath env
        = joinPath env.folder ("test-data-load-" ++ strftimeFile env.startClock ++ ".xlsx") ∧
      ∀ p ∈ csvFilesOf env, p ≠ excelPath env := by
  refine ⟨?_, rfl, fun p hp => csvFile_ne_excelPath hp⟩
  by_cases hk : env.pathKind = PathKind.missing
  · rw [process_eq_of_missing hk] at h
    injection h with h2
    subst h2
    exact Or.inl rfl
  by_cases h0 : (csvFilesOf env).length = 0
  · rw [process_eq_of_noFiles hk h0] at h
    injection h with h2
    subst h2
    exact Or.inl rfl
  cases hs : runSheets env with
  | nil =>
      rw [process_eq_of_emptySheets hk h0 hs] at h
      cases h
  | cons s t =>
      cases hf : env.finalizeFailure with
      | some e =>
          rw [process_eq_of_finalizeFail hk h0 (by rw [hs]; simp) hf] at h
          cases h
      | none =>
          rw [process_eq_of_files hk h0 (by rw [hs]; simp) hf] at h
          injection h with h2
          subst h2
          exact Or.inr ⟨_, rfl⟩

/-- Environment for the C9 witness: one CSV file, successful run. -/
def envFrameRun : Env :=
  { folder := "d", pathKind := PathKind.directory, entries := ["a.csv"],
    load := fun _ => LoadResult.ok ⟨["x"], [[Cell.num 7], [Cell.num 8]]⟩,
    loadClock := fun _ => ⟨2024, 3, 5, 9, 7, 0⟩,
    startClock := ⟨2024, 1, 2, 3, 4, 5⟩,
    finalizeFailure := none }

/-- The output of the C9 witness run. -/
def outFrameRun : RunOutput :=
  { messages := ["Found 1 CSV files:", "  - a.csv",
      "Successfully added \x27a.csv\x27 to sheet \x27a\x27 with 2 rows and timestamp: 2024-03-05 09:07AM",
      "Excel file created at: d/test-data-load-20240102-030405.xlsx"],
    written := some ("d/test-data-load-20240102-030405.xlsx",
      ⟨[("a", ⟨["seqno", "x", "create_ts", "updt_ts"],
          [[Cell.num 1, Cell.num 7, Cell.text "2024-03-05 09:07AM",
            Cell.text "2024-03-05 09:07AM"],
           [Cell.num 2, Cell.num 8, Cell.text "2024-03-05 09:07AM",
            Cell.text "2024-03-05 09:07AM"]]⟩)]⟩) }

/-- C9 witness: the theorem applied to a concrete successful run. -/
theorem c9_witness :
    process_folder_csvs envFrameRun = Except.ok outFrameRun ∧
      ((outFrameRun.written = none ∨
          ∃ wb, outFrameRun.written = some (excelPath envFrameRun, wb)) ∧
        excelPath envFrameRun
          = joinPath envFrameRun.folder
              ("test-data-load-" ++ strftimeFile envFrameRun.startClock ++ ".xlsx") ∧
        ∀ p ∈ csvFilesOf envFrameRun, p ≠ excelPath envFrameRun) :=
  ⟨by rfl, c9_only_writes_workbook envFrameRun outFrameRun (by rfl)⟩

/-- C7: every sheet actually written is named after the source file's base
name with the extension removed, truncated to 31 characters, and hence no
sheet name ever exceeds 31 characters. -/
theorem c7_sheet_name_31 (env : Env) (p nm : String) (df2 : DataFrame) (m : String)
    (h : processFile env p = (some (nm, df2), m)) :
    nm = (splitextStem (basename p)).take 31 ∧ nm.length ≤ 31 := by
  obtain ⟨df, hload, hseq, hnm, hdf2⟩ := processFile_some_inv h
  constructor
  · exact hnm
  · rw [hnm]
    unfold sheetNameFor
    exact string_length_take_le _ 31

/-- Environment for the C7 witness: a CSV whose base name is longer than
31 characters. -/
def envLongName : Env :=
  { folder := "d", pathKind := PathKind.directory,
    entries := ["abcdefghijklmnopqrstuvwxyz0123456789.csv"],
    load := fun _ => LoadResult.ok ⟨["x"], [[Cell.num 7], [Cell.num 8]]⟩,
    loadClock := fun _ => ⟨2024, 3, 5, 9, 7, 0⟩,
    startClock := ⟨2024, 1, 2, 3, 4, 5⟩,
    finalizeFailure := none }

/-- The augmented frame of the C7 witness file. -/
def dfLongName : DataFrame :=
  ⟨["seqno", "x", "create_ts", "updt_ts"],
    [[Cell.num 1, Cell.num 7, Cell.text "2024-03-05 09:07AM", Cell.text "2024-03-05 09:07AM"],
     [Cell.num 2, Cell.num 8, Cell.text "2024-03-05 09:07AM", Cell.text "2024-03-05 09:07AM"]]⟩

/-- C7 witness: a 36-character base name is cut down to 31 characters. -/
theorem c7_witness :
    processFile envLongName "d/abcdefghijklmnopqrstuvwxyz0123456789.csv"
        = (some ("abcdefghijklmnopqrstuvwxyz01234", dfLongName),
           "Successfully added \x27abcdefghijklmnopqrstuvwxyz0123456789.csv\x27 to sheet \x27abcdefghijklmnopqrstuvwxyz01234\x27 with 2 rows and timestamp: 2024-03-05 09:07AM") ∧
      ("abcdefghijklmnopqrstuvwxyz01234"
          = (splitextStem (basename "d/abcdefghijklmnopqrstuvwxyz0123456789.csv")).take 31 ∧
        ("abcdefghijklmnopqrstuvwxyz01234" : String).length ≤ 31) :=
  ⟨by rfl,
   c7_sheet_name_31 envLongName "d/abcdefghijklmnopqrstuvwxyz0123456789.csv"
     "abcdefghijklmnopqrstuvwxyz01234" dfLongName
     "Successfully added \x27abcdefghijklmnopqrstuvwxyz0123456789.csv\x27 to sheet \x27abcdefghijklmnopqrstuvwxyz01234\x27 with 2 rows and timestamp: 2024-03-05 09:07AM"
     (by rfl)⟩

/-- C6: in every sheet a run writes, the sequence-number column holds
exactly the values 1, 2, ... row-count, one per row in order: it starts at
1, increases by exactly 1 per row with no gaps, is regenerated from the
row count of this table alone, and covers precisely the rows of this
table. -/
theorem c6_seqno_column (env : Env) (p nm : String) (df2 : DataFrame) (m : String)
    (h : processFile env p = (some (nm, df2), m)) :
    ∀ j, j < df2.rows.length →
      ∃ r, df2.rows[j]? = some r ∧ r.head? = some (Cell.num (j + 1)) := by
  obtain ⟨df, hload, hseq, hnm, hdf2⟩ := processFile_some_inv h
  subst hdf2
  intro j hj
  rw [augmentFrame_rows_length] at hj
  have hsome : df.rows[j]? = some df.rows[j] := List.getElem?_eq_getElem hj
  obtain ⟨l2, h2⟩ := augmentFrame_rows_head hsome
  exact ⟨Cell.num (j + 1) :: l2, h2, rfl⟩

/-- Environment for the C6 witness. -/
def envSeqnoRun : Env :=
  { folder := "d", pathKind := PathKind.directory, entries := ["a.csv"],
    load := fun _ => LoadResult.ok ⟨["x"], [[Cell.num 7], [Cell.num 8]]⟩,
    loadClock := fun _ => ⟨2024, 3, 5, 9, 7, 0⟩,
    startClock := ⟨2024, 1, 2, 3, 4, 5⟩,
    finalizeFailure := none }

/-- The augmented frame of the C6 witness file. -/
def dfSeqnoRun : DataFrame :=
  ⟨["seqno", "x", "create_ts", "updt_ts"],
    [[Cell.num 1, Cell.num 7, Cell.text "2024-03-05 09:07AM", Cell.text "2024-03-05 09:07AM"],
     [Cell.num 2, Cell.num 8, Cell.text "2024-03-05 09:07AM", Cell.text "2024-03-05 09:07AM"]]⟩

/-- C6 witness: the theorem applied to a concrete written sheet. -/
theorem c6_witness :
    processFile envSeqnoRun "d/a.csv"
        = (some ("a", dfSeqnoRun),
           "Successfully added \x27a.csv\x27 to sheet \x27a\x27 with 2 rows and timestamp: 2024-03-05 09:07AM") ∧
      ∀ j, j < dfSeqnoRun.rows.length →
        ∃ r, dfSeqnoRun.rows[j]? = some r ∧ r.head? = some (Cell.num (j + 1)) :=
  ⟨by rfl,
   c6_seqno_column envSeqnoRun "d/a.csv" "a" dfSeqnoRun
     "Successfully added \x27a.csv\x27 to sheet \x27a\x27 with 2 rows and timestamp: 2024-03-05 09:07AM"
     (by rfl)⟩

/-- Environment for the C3 counterexample and witness: the per-file clock
reads 9:07 AM, an hour with a single significant digit. -/
def envHourNine : Env :=
  { folder := "d", pathKind := PathKind.directory, entries := ["a.csv"],
    load := fun _ => LoadResult.ok ⟨["x"], [[Cell.num 7]]⟩,
    loadClock := fun _ => ⟨2024, 3, 5, 9, 7, 0⟩,
    startClock := ⟨2024, 1, 2, 3, 4, 5⟩,
    finalizeFailure := none }

/-- C3, counterexample: at 9:07 AM the code writes `09:07AM` — the hour of
`%I` is zero-padded to two digits, not left unpadded as the claim states,
and the sheet's timestamp cells carry the padded form. -/
theorem c3_counterexample_hour_padded :
    strftimeColumn ⟨2024, 3, 5, 9, 7, 0⟩ = "2024-03-05 09:07AM" ∧
      strftimeColumn ⟨2024, 3, 5, 9, 7, 0⟩ ≠ "2024-03-05 9:07AM" ∧
      (processFile envHourNine "d/a.csv").1
        = some ("a", ⟨["seqno", "x", "create_ts", "updt_ts"],
            [[Cell.num 1, Cell.num 7, Cell.text "2024-03-05 09:07AM",
              Cell.text "2024-03-05 09:07AM"]]⟩) :=
  ⟨by rfl, by decide, by rfl⟩

/-- C3 (amended): for every successfully loaded file the wall clock is
read once, formatted as `YYYY-MM-DD hh:mmAM/PM` — 12-hour clock,
zero-padded minutes, hour zero-padded to two digits (`%I`), uppercase
AM/PM suffix with no space before it — and this single string fills both
the creation- and update-timestamp columns as literal text. -/
theorem c3_timestamp_columns (env : Env) (p : String) (df : DataFrame)
    (hload : env.load p = LoadResult.ok df) (hseq : "seqno" ∉ df.cols)
    (hrect : df.Rect) (hmin : (env.loadClock p).minute < 60) :
    ∃ df2 msg,
      processFile env p = (some (sheetNameFor p, df2), msg) ∧
      df2.colNamed "create_ts"
        = List.replicate df.rows.length (Cell.text (strftimeColumn (env.loadClock p))) ∧
      df2.colNamed "updt_ts"
        = List.replicate df.rows.length (Cell.text (strftimeColumn (env.loadClock p))) ∧
      ∃ hh mm : String,
        strftimeColumn (env.loadClock p)
          = pad4 (env.loadClock p).year ++ "-" ++ pad2 (env.loadClock p).month ++ "-" ++
            pad2 (env.loadClock p).day ++ " " ++ hh ++ ":" ++ mm ++
            (if (env.loadClock p).hour < 12 then "AM" else "PM") ∧
        hh.length = 2 ∧ mm.length = 2 ∧
        (hour12 (env.loadClock p).hour < 10 → ∃ d2, hh = "0" ++ d2) := by
  refine ⟨augmentFrame df (strftimeColumn (env.loadClock p)), _,
    processFile_eq_of_clean hload hseq, ?_, ?_, ?_⟩
  · unfold augmentFrame
    rw [colNamed_setCol_other _ (show "create_ts" ≠ "updt_ts" by decide)
        (setCol_rect _ _ (insertedFrame_rect hrect)),
      colNamed_setCol_self _ _ (insertedFrame_rect hrect),
      insertedFrame_rows_length]
  · unfold augmentFrame
    rw [colNamed_setCol_self _ _ (setCol_rect _ _ (insertedFrame_rect hrect)),
      setCol_rows_length, insertedFrame_rows_length]
  · refine ⟨pad2 (hour12 (env.loadClock p).hour), pad2 (env.loadClock p).minute,
      rfl, pad2_length (hour12_lt _), pad2_length (by omega), ?_⟩
    intro h10
    refine ⟨toString (hour12 (env.loadClock p).hour), ?_⟩
    unfold pad2
    rw [if_pos h10]

/-- Environment for the C3 witness. -/
def envC3Run : Env :=
  { folder := "d", pathKind := PathKind.directory, entries := ["b.csv"],
    load := fun _ => LoadResult.ok ⟨["y"], [[Cell.num 1], [Cell.num 2]]⟩,
    loadClock := fun _ => ⟨2025, 11, 30, 9, 7, 0⟩,
    startClock := ⟨2025, 11, 30, 9, 6, 0⟩,
    finalizeFailure := none }

/-- C3 witness: the amended theorem applied to a concrete file. -/
theorem c3_witness :
    envC3Run.load "d/b.csv" = LoadResult.ok ⟨["y"], [[Cell.num 1], [Cell.num 2]]⟩ ∧
      "seqno" ∉ (DataFrame.mk ["y"] [[Cell.num 1], [Cell.num 2]]).cols ∧
      (DataFrame.mk ["y"] [[Cell.num 1], [Cell.num 2]]).Rect ∧
      (envC3Run.loadClock "d/b.csv").minute < 60 ∧
      ∃ df2 msg,
        processFile envC3Run "d/b.csv" = (some (sheetNameFor "d/b.csv", df2), msg) ∧
        df2.colNamed "create_ts"
          = List.replicate 2 (Cell.text (strftimeColumn (envC3Run.loadClock "d/b.csv"))) ∧
        df2.colNamed "updt_ts"
          = List.replicate 2 (Cell.text (strftimeColumn (envC3Run.loadClock "d/b.csv"))) ∧
        ∃ hh mm : String,
          strftimeColumn (envC3Run.loadClock "d/b.csv")
            = pad4 (envC3Run.loadClock "d/b.csv").year ++ "-" ++
              pad2 (envC3Run.loadClock "d/b.csv").month ++ "-" ++
              pad2 (envC3Run.loadClock "d/b.csv").day ++ " " ++ hh ++ ":" ++ mm ++
              (if (envC3Run.loadClock "d/b.csv").hour < 12 then "AM" else "PM") ∧
          hh.length = 2 ∧ mm.length = 2 ∧
          (hour12 (envC3Run.loadClock "d/b.csv").hour < 10 → ∃ d2, hh = "0" ++ d2) :=
  ⟨rfl, by decide, by decide, by decide,
   c3_timestamp_columns envC3Run "d/b.csv" ⟨["y"], [[Cell.num 1], [Cell.num 2]]⟩
     rfl (by decide) (by decide) (by decide)⟩

/-- Environment for the C5 counterexample: the loaded CSV already has a
`create_ts` column. -/
def envPreexistingCreateTs : Env :=
  { folder := "d", pathKind := PathKind.directory, entries := ["t.csv"],
    load := fun _ => LoadResult.ok ⟨["a", "create_ts"], [[Cell.text "x", Cell.text "y"]]⟩,
    loadClock := fun _ => ⟨2024, 3, 5, 9, 7, 0⟩,
    startClock := ⟨2024, 1, 2, 3, 4, 5⟩,
    finalizeFailure := none }

/-- C5, counterexample: a loaded table with k = 2 original columns, one of
which is already called `create_ts`, is written as a sheet with only
k + 2 = 4 columns — the assignment overwrites the existing column in
place (its old value `y` is gone) instead of appending a new one, so the
sheet does not have k + 3 columns and the original columns are not
unchanged. -/
theorem c5_counterexample :
    envPreexistingCreateTs.load "d/t.csv"
        = LoadResult.ok ⟨["a", "create_ts"], [[Cell.text "x", Cell.text "y"]]⟩ ∧
      (processFile envPreexistingCreateTs "d/t.csv").1
        = some ("t", ⟨["seqno", "a", "create_ts", "updt_ts"],
            [[Cell.num 1, Cell.text "x", Cell.text "2024-03-05 09:07AM",
              Cell.text "2024-03-05 09:07AM"]]⟩) ∧
      (["seqno", "a", "create_ts", "updt_ts"] : List String).length
        ≠ (["a", "create_ts"] : List String).length + 3 :=
  ⟨rfl, by rfl, by decide⟩

/-- C5 (amended): for every sheet written from a loaded table with k
original columns, none of which is already named `create_ts` or
`updt_ts`, the sheet has k + 3 columns: column 1 is the sequence number,
columns 2..k+1 are the original columns unchanged and in order, and the
last two columns are the creation and update timestamps, holding the same
text value in every row. -/
theorem c5_sheet_columns (env : Env) (p : String) (df : DataFrame)
    (hload : env.load p = LoadResult.ok df) (hseq : "seqno" ∉ df.cols)
    (hct : "create_ts" ∉ df.cols) (hut : "updt_ts" ∉ df.cols) :
    ∃ df2 msg, processFile env p = (some (sheetNameFor p, df2), msg) ∧
      df2.cols = "seqno" :: df.cols ++ ["create_ts", "updt_ts"] ∧
      df2.cols.length = df.cols.length + 3 ∧
      ∀ (j : Nat) (r : List Cell), df.rows[j]? = some r →
        df2.rows[j]? = some (Cell.num (j + 1) ::
          (r ++ [Cell.text (strftimeColumn (env.loadClock p)),
                 Cell.text (strftimeColumn (env.loadClock p))])) := by
  have hc1 : "create_ts" ∉ (insertedFrame df).cols := by
    intro hmem
    rcases List.mem_cons.mp hmem with he | hm
    · exact absurd he (by decide)
    · exact hct hm
  have e1 : ((insertedFrame df).setCol "create_ts"
        (Cell.text (strftimeColumn (env.loadClock p)))).cols
      = ("seqno" :: df.cols) ++ ["create_ts"] :=
    setCol_cols_of_not_mem _ hc1
  have hc2 : "updt_ts" ∉ ((insertedFrame df).setCol "create_ts"
      (Cell.text (strftimeColumn (env.loadClock p)))).cols := by
    rw [e1]
    intro hmem
    rcases List.mem_append.mp hmem with hm | hm
    · rcases List.mem_cons.mp hm with he | hm2
      · exact absurd he (by decide)
      · exact hut hm2
    · rcases List.mem_cons.mp hm with he | hm2
      · exact absurd he (by decide)
      · cases hm2
  have hcols : (augmentFrame df (strftimeColumn (env.loadClock p))).cols
      = "seqno" :: df.cols ++ ["create_ts", "updt_ts"] := by
    unfold augmentFrame
    rw [setCol_cols_of_not_mem _ hc2, e1]
    simp
  refine ⟨augmentFrame df (strftimeColumn (env.loadClock p)), _,
    processFile_eq_of_clean hload hseq, hcols, ?_, ?_⟩
  · rw [hcols]
    simp only [List.length_cons, List.length_append, List.length_nil]
  · intro j r hj
    have h1 := insertedFrame_rows_getElem hj
    have h2 : ((insertedFrame df).setCol "create_ts"
          (Cell.text (strftimeColumn (env.loadClock p)))).rows[j]?
        = some ((Cell.num (j + 1) :: r)
            ++ [Cell.text (strftimeColumn (env.loadClock p))]) :=
      setCol_rows_getElem_append hc1 h1
    have h3 : (((insertedFrame df).setCol "create_ts"
            (Cell.text (strftimeColumn (env.loadClock p)))).setCol "updt_ts"
          (Cell.text (strftimeColumn (env.loadClock p)))).rows[j]?
        = some (((Cell.num (j + 1) :: r)
              ++ [Cell.text (strftimeColumn (env.loadClock p))])
            ++ [Cell.text (strftimeColumn (env.loadClock p))]) :=
      setCol_rows_getElem_append hc2 h2
    unfold augmentFrame
    rw [h3]
    simp [List.cons_append, List.append_assoc]

/-- Environment for the C5 witness: a plain two-column CSV. -/
def envPlainTable : Env :=
  { folder := "d", pathKind := PathKind.directory, entries := ["c.csv"],
    load := fun _ => LoadResult.ok ⟨["a", "b"], [[Cell.num 10, Cell.text "u"]]⟩,
    loadClock := fun _ => ⟨2024, 3, 5, 9, 7, 0⟩,
    startClock := ⟨2024, 1, 2, 3, 4, 5⟩,
    finalizeFailure := none }

/-- C5 witness: the amended theorem applied to a concrete plain table. -/
theorem c5_witness :
    envPlainTable.load "d/c.csv"
        = LoadResult.ok ⟨["a", "b"], [[Cell.num 10, Cell.text "u"]]⟩ ∧
      "seqno" ∉ (DataFrame.mk ["a", "b"] [[Cell.num 10, Cell.text "u"]]).cols ∧
      "create_ts" ∉ (DataFrame.mk ["a", "b"] [[Cell.num 10, Cell.text "u"]]).cols ∧
      "updt_ts" ∉ (DataFrame.mk ["a", "b"] [[Cell.num 10, Cell.text "u"]]).cols ∧
      ∃ df2 msg, processFile envPlainTable "d/c.csv" = (some (sheetNameFor "d/c.csv", df2), msg) ∧
        df2.cols = "seqno" :: (DataFrame.mk ["a", "b"] [[Cell.num 10, Cell.text "u"]]).cols
          ++ ["create_ts", "updt_ts"] ∧
        df2.cols.length
          = (DataFrame.mk ["a", "b"] [[Cell.num 10, Cell.text "u"]]).cols.length + 3 ∧
        ∀ (j : Nat) (r : List Cell),
            (DataFrame.mk ["a", "b"] [[Cell.num 10, Cell.text "u"]]).rows[j]? = some r →
          df2.rows[j]? = some (Cell.num (j + 1) ::
            (r ++ [Cell.text (strftimeColumn (envPlainTable.loadClock "d/c.csv")),
                   Cell.text (strftimeColumn (envPlainTable.loadClock "d/c.csv"))])) :=
  ⟨rfl, by decide, by decide, by decide,
   c5_sheet_columns envPlainTable "d/c.csv" ⟨["a", "b"], [[Cell.num 10, Cell.text "u"]]⟩
     rfl (by decide) (by decide) (by decide)⟩

/-- C10: (1) a CSV whose header already has a `seqno` column loads fine
but the sequence-number insert raises, the generic per-file handler turns
the error into the printed `Error processing ...` line, and the file
yields no sheet; (2) the workbook a run writes is always the fold of
every retained file's outcome in order, so one skipped file never stops
the remaining files from being processed; (3) a CSV whose header already
has a `create_ts` or an `updt_ts` column is still written as a sheet,
with the existing column silently overwritten by the timestamp string
(both timestamp columns end up holding exactly that string). -/
theorem c10_special_header_columns :
    (∀ (env : Env) (p : String) (df : DataFrame),
        env.load p = LoadResult.ok df → "seqno" ∈ df.cols →
          processFile env p
            = (none, "Error processing \x27" ++ p ++ "\x27: "
                ++ "cannot insert seqno, already exists")) ∧
    (∀ (env : Env) (out : RunOutput),
        process_folder_csvs env = Except.ok out →
        ∀ (pw : String) (wb : Workbook), out.written = some (pw, wb) →
          wb.sheets = runSheets env) ∧
    (∀ (env : Env) (p : String) (df : DataFrame),
        env.load p = LoadResult.ok df → "seqno" ∉ df.cols →
        ("create_ts" ∈ df.cols ∨ "updt_ts" ∈ df.cols) → df.Rect →
          ∃ df2 msg, processFile env p = (some (sheetNameFor p, df2), msg) ∧
            df2.colNamed "create_ts"
              = List.replicate df.rows.length
                  (Cell.text (strftimeColumn (env.loadClock p))) ∧
            df2.colNamed "updt_ts"
              = List.replicate df.rows.length
                  (Cell.text (strftimeColumn (env.loadClock p)))) := by
  refine ⟨?_, ?_, ?_⟩
  · intro env p df hload hseq
    exact processFile_eq_of_seqno hload hseq
  · intro env out h pw wb hw
    by_cases hk : env.pathKind = PathKind.missing
    · rw [process_eq_of_missing hk] at h
      injection h with h2
      subst h2
      cases hw
    by_cases h0 : (csvFilesOf env).length = 0
    · rw [process_eq_of_noFiles hk h0] at h
      injection h with h2
      subst h2
      cases hw
    cases hs : runSheets env with
    | nil =>
        rw [process_eq_of_emptySheets hk h0 hs] at h
        cases h
    | cons s t =>
        cases hf : env.finalizeFailure with
        | some e =>
            rw [process_eq_of_finalizeFail hk h0 (by rw [hs]; simp) hf] at h
            cases h
        | none =>
            rw [process_eq_of_files hk h0 (by rw [hs]; simp) hf] at h
            injection h with h2
            subst h2
            simp only [Option.some.injEq, Prod.mk.injEq] at hw
            rw [← hw.2]
            exact hs
  · intro env p df hload hseq hspecial hrect
    refine ⟨augmentFrame df (strftimeColumn (env.loadClock p)), _,
      processFile_eq_of_clean hload hseq, ?_, ?_⟩
    · unfold augmentFrame
      rw [colNamed_setCol_other _ (show "create_ts" ≠ "updt_ts" by decide)
          (setCol_rect _ _ (insertedFrame_rect hrect)),
        colNamed_setCol_self _ _ (insertedFrame_rect hrect),
        insertedFrame_rows_length]
    · unfold augmentFrame
      rw [colNamed_setCol_self _ _ (setCol_rect _ _ (insertedFrame_rect hrect)),
        setCol_rows_length, insertedFrame_rows_length]

/-- Environment for the C10 witness: one CSV with a `seqno` header clash,
one with a pre-existing `create_ts` column and one with a pre-existing
`updt_ts` column. -/
def envMixed : Env :=
  { folder := "d", pathKind := PathKind.directory,
    entries := ["s.csv", "b.csv", "u.csv"],
    load := fun p =>
      if p = "d/s.csv" then LoadResult.ok ⟨["seqno"], [[Cell.num 5]]⟩
      else if p = "d/u.csv" then
        LoadResult.ok ⟨["q", "updt_ts"], [[Cell.num 4, Cell.text "old2"]]⟩
      else LoadResult.ok ⟨["p", "create_ts"], [[Cell.num 3, Cell.text "old"]]⟩,
    loadClock := fun _ => ⟨2024, 3, 5, 9, 7, 0⟩,
    startClock := ⟨2024, 1, 2, 3, 4, 5⟩,
    finalizeFailure := none }

/-- The output of the C10 witness run: the clashing file is skipped with
a message while the two others still become sheets. -/
def outMixed : RunOutput :=
  { messages := ["Found 3 CSV files:", "  - b.csv", "  - s.csv", "  - u.csv",
      "Successfully added \x27b.csv\x27 to sheet \x27b\x27 with 1 rows and timestamp: 2024-03-05 09:07AM",
      "Error processing \x27d/s.csv\x27: cannot insert seqno, already exists",
      "Successfully added \x27u.csv\x27 to sheet \x27u\x27 with 1 rows and timestamp: 2024-03-05 09:07AM",
      "Excel file created at: d/test-data-load-20240102-030405.xlsx"],
    written := some ("d/test-data-load-20240102-030405.xlsx",
      ⟨[("b", ⟨["seqno", "p", "create_ts", "updt_ts"],
          [[Cell.num 1, Cell.num 3, Cell.text "2024-03-05 09:07AM",
            Cell.text "2024-03-05 09:07AM"]]⟩),
        ("u", ⟨["seqno", "q", "updt_ts", "create_ts"],
          [[Cell.num 1, Cell.num 4, Cell.text "2024-03-05 09:07AM",
            Cell.text "2024-03-05 09:07AM"]]⟩)]⟩) }

/-- The workbook of the C10 witness run. -/
def wbMixed : Workbook :=
  ⟨[("b", ⟨["seqno", "p", "create_ts", "updt_ts"],
      [[Cell.num 1, Cell.num 3, Cell.text "2024-03-05 09:07AM",
        Cell.text "2024-03-05 09:07AM"]]⟩),
    ("u", ⟨["seqno", "q", "updt_ts", "create_ts"],
      [[Cell.num 1, Cell.num 4, Cell.text "2024-03-05 09:07AM",
        Cell.text "2024-03-05 09:07AM"]]⟩)]⟩

/-- C10 witness: all three parts of the theorem applied to the mixed run,
part 3 once for a `create_ts` header and once for an `updt_ts` header. -/
theorem c10_witness :
    processFile envMixed "d/s.csv"
        = (none, "Error processing \x27d/s.csv\x27: "
            ++ "cannot insert seqno, already exists") ∧
      wbMixed.sheets = runSheets envMixed ∧
      (∃ df2 msg,
        processFile envMixed "d/b.csv" = (some (sheetNameFor "d/b.csv", df2), msg) ∧
        df2.colNamed "create_ts"
          = List.replicate 1 (Cell.text (strftimeColumn (envMixed.loadClock "d/b.csv"))) ∧
        df2.colNamed "updt_ts"
          = List.replicate 1 (Cell.text (strftimeColumn (envMixed.loadClock "d/b.csv")))) ∧
      (∃ df2 msg,
        processFile envMixed "d/u.csv" = (some (sheetNameFor "d/u.csv", df2), msg) ∧
        df2.colNamed "create_ts"
          = List.replicate 1 (Cell.text (strftimeColumn (envMixed.loadClock "d/u.csv"))) ∧
        df2.colNamed "updt_ts"
          = List.replicate 1 (Cell.text (strftimeColumn (envMixed.loadClock "d/u.csv")))) :=
  ⟨c10_special_header_columns.1 envMixed "d/s.csv" ⟨["seqno"], [[Cell.num 5]]⟩
     (by rfl) (by decide),
   c10_special_header_columns.2.1 envMixed outMixed (by rfl)
     "d/test-data-load-20240102-030405.xlsx" wbMixed (by rfl),
   c10_special_header_columns.2.2 envMixed "d/b.csv"
     ⟨["p", "create_ts"], [[Cell.num 3, Cell.text "old"]]⟩
     (by rfl) (by decide) (Or.inl (by decide)) (by decide),
   c10_special_header_columns.2.2 envMixed "d/u.csv"
     ⟨["q", "updt_ts"], [[Cell.num 4, Cell.text "old2"]]⟩
     (by rfl) (by decide) (Or.inr (by decide)) (by decide)⟩

/-- Environment for the C4 counterexample, first scenario: a single CSV
that loads successfully but whose header already contains `seqno`. -/
def envSeqnoOnly : Env :=
  { folder := "d", pathKind := PathKind.directory, entries := ["s.csv"],
    load := fun _ => LoadResult.ok ⟨["seqno"], [[Cell.num 5]]⟩,
    loadClock := fun _ => ⟨2024, 3, 5, 9, 7, 0⟩,
    startClock := ⟨2024, 1, 2, 3, 4, 5⟩,
    finalizeFailure := none }

/-- Environment for the C4 counterexample, second scenario: two clean
CSV files whose 32-character stems truncate to the same 31-character
sheet name. -/
def envNameClash : Env :=
  { folder := "d", pathKind := PathKind.directory,
    entries := ["aaaaaaaaaaaaaaaaaaaaaaaaaaaaaaax.csv",
      "aaaaaaaaaaaaaaaaaaaaaaaaaaaaaaay.csv"],
    load := fun _ => LoadResult.ok ⟨["c"], [[Cell.num 1]]⟩,
    loadClock := fun _ => ⟨2024, 3, 5, 9, 7, 0⟩,
    startClock := ⟨2024, 1, 2, 3, 4, 5⟩,
    finalizeFailure := none }

/-- C4, counterexample, two ways the claim fails.  First: N = 1 file is
discovered and loads successfully, yet no workbook with min(1, 3) = 1
sheets exists — the sequence-number insert raises after the successful
load, nothing is ever written, and saving the sheetless workbook raises
openpyxl's IndexError instead of returning.  Second: N = 2 files load
successfully, but their stems truncate to the same 31-character sheet
name, the second write reuses the first file's sheet, and the workbook
ends up with 1 sheet, not min(2, 3) = 2. -/
theorem c4_counterexample :
    ((csvFilesOf envSeqnoOnly).length = 1 ∧
      envSeqnoOnly.load "d/s.csv" = LoadResult.ok ⟨["seqno"], [[Cell.num 5]]⟩ ∧
      process_folder_csvs envSeqnoOnly
        = Except.error "At least one sheet must be visible") ∧
    ((csvFilesOf envNameClash).length = 2 ∧
      (∀ p ∈ csvFilesOf envNameClash, loadsCleanly envNameClash p = true) ∧
      Except.map (fun o => o.written.map (fun w => w.2.sheets.length))
          (process_folder_csvs envNameClash) = Except.ok (some 1) ∧
      (1 : Nat) ≠ min 2 3) :=
  ⟨⟨by decide, rfl, by rfl⟩, by decide, by decide, by rfl, by decide⟩

/-- C4 (amended): for any N ≥ 1 discovered files that all load
successfully, none of whose headers already has a `seqno` column, and no
two of whose truncated sheet names coincide, the workbook holds exactly
min(N, 3) sheets — the per-file results of the first min(N, 3) file
names in lexicographic order — and when N > 3 a message naming the total
discovered count is printed. -/
theorem c4_sheet_cap (env : Env)
    (hN : 0 < (csvFilesOf env).length)
    (hclean : ∀ p ∈ csvFilesOf env, loadsCleanly env p = true)
    (hnames : ((retainedFiles env).map (fun p => sheetNameFor p)).Nodup)
    (hfin : env.finalizeFailure = none) :
    ∃ out wb, process_folder_csvs env = Except.ok out ∧
      out.written = some (excelPath env, wb) ∧
      wb.sheets.length = min (csvFilesOf env).length 3 ∧
      wb.sheets
        = ((sortStrings (env.entries.filter matchesCsvPattern)).take 3).filterMap
            (fun nm => (processFile env (joinPath env.folder nm)).1) ∧
      (3 < (csvFilesOf env).length →
        ("\nUsing first 3 CSV files (found "
            ++ toString (csvFilesOf env).length ++ " total)") ∈ out.messages) := by
  have hdir : env.pathKind = PathKind.directory := by
    by_contra hnd
    unfold csvFilesOf at hN
    rw [if_neg hnd] at hN
    simp at hN
  have hk : env.pathKind ≠ PathKind.missing := by
    rw [hdir]; intro hc; cases hc
  have h0 : (csvFilesOf env).length ≠ 0 := Nat.pos_iff_ne_zero.mp hN
  have hnames2 : csvFilesOf env
      = (env.entries.filter matchesCsvPattern).map (joinPath env.folder) := by
    unfold csvFilesOf
    rw [if_pos hdir]
  have hsorted : sortedFiles env
      = (sortStrings (env.entries.filter matchesCsvPattern)).map (joinPath env.folder) := by
    unfold sortedFiles
    rw [hnames2, sortStrings_map_join]
  have hretained : retainedFiles env
      = ((sortStrings (env.entries.filter matchesCsvPattern)).take 3).map
          (joinPath env.folder) := by
    rw [retainedFiles_eq_take, hsorted, List.map_take]
  have hlen : (sortedFiles env).length = (csvFilesOf env).length :=
    (sortStrings_perm _).length_eq
  have hsome_shape : ∀ p ∈ retainedFiles env,
      ∃ d, (processFile env p).1 = some (sheetNameFor p, d) := by
    intro p hp
    have hpm : p ∈ csvFilesOf env := by
      rw [retainedFiles_eq_take] at hp
      have h1 : p ∈ sortedFiles env := List.mem_of_mem_take hp
      exact (sortStrings_perm (csvFilesOf env)).mem_iff.mp h1
    have hcl := hclean p hpm
    unfold loadsCleanly at hcl
    cases hl : env.load p with
    | ok df =>
        rw [hl] at hcl
        dsimp only at hcl
        have hseq : "seqno" ∉ df.cols := by
          intro hmem
          rw [contains_eq_true_of_mem hmem] at hcl
          simp at hcl
        exact ⟨_, by rw [processFile_eq_of_clean hl hseq]⟩
    | fileNotFound => rw [hl] at hcl; simp at hcl
    | emptyData => rw [hl] at hcl; simp at hcl
    | failure e => rw [hl] at hcl; simp at hcl
  have hall : ∀ p ∈ retainedFiles env, ((processFile env p).1).isSome = true := by
    intro p hp
    obtain ⟨d, hd⟩ := hsome_shape p hp
    rw [hd]
    rfl
  have hmf : ((retainedFiles env).map (fun p => (processFile env p).1)).filterMap id
      = (retainedFiles env).filterMap (fun p => (processFile env p).1) := by
    rw [List.filterMap_map, Function.id_comp]
  have hnd : ((((retainedFiles env).map (fun p => (processFile env p).1)).filterMap
      id).map Prod.fst).Nodup := by
    rw [hmf, map_fst_filterMap_of_named hsome_shape]
    exact hnames
  have hrun : runSheets env
      = (retainedFiles env).filterMap (fun p => (processFile env p).1) := by
    unfold runSheets
    rw [foldl_applyWrite_eq_append _ [] hnd (by intro x hx nm hnm; cases hx),
      hmf, List.nil_append]
  have hlenr : (runSheets env).length = min (csvFilesOf env).length 3 := by
    rw [hrun, length_filterMap_of_isSome hall, retainedFiles_eq_take,
      List.length_take, hlen, Nat.min_comm]
  have hne_sheets : runSheets env ≠ [] := by
    apply List.length_pos.mp
    rw [hlenr]
    omega
  refine ⟨_, _, process_eq_of_files hk h0 hne_sheets hfin, rfl, ?_, ?_, ?_⟩
  · exact hlenr
  · show runSheets env
        = ((sortStrings (env.entries.filter matchesCsvPattern)).take 3).filterMap
            (fun nm => (processFile env (joinPath env.folder nm)).1)
    rw [hrun, hretained, List.filterMap_map]
    rfl
  · intro h3
    have hgt : (sortedFiles env).length > 3 := by rw [hlen]; exact h3
    rw [if_pos hgt, hlen]
    simp

/-- Environment for the C4 witness: four clean CSV files with distinct
names, so the cap and its message both apply. -/
def envCapRun : Env :=
  { folder := "d", pathKind := PathKind.directory,
    entries := ["d.csv", "b.csv", "a.csv", "c.csv"],
    load := fun _ => LoadResult.ok ⟨["x"], [[Cell.num 1]]⟩,
    loadClock := fun _ => ⟨2024, 3, 5, 9, 7, 0⟩,
    startClock := ⟨2024, 1, 2, 3, 4, 5⟩,
    finalizeFailure := none }

/-- C4 witness: the amended theorem applied to a four-file run. -/
theorem c4_witness :
    0 < (csvFilesOf envCapRun).length ∧
      (∀ p ∈ csvFilesOf envCapRun, loadsCleanly envCapRun p = true) ∧
      ((retainedFiles envCapRun).map (fun p => sheetNameFor p)).Nodup ∧
      envCapRun.finalizeFailure = none ∧
      ∃ out wb, process_folder_csvs envCapRun = Except.ok out ∧
        out.written = some (excelPath envCapRun, wb) ∧
        wb.sheets.length = min (csvFilesOf envCapRun).length 3 ∧
        wb.sheets
          = ((sortStrings (envCapRun.entries.filter matchesCsvPattern)).take 3).filterMap
              (fun nm => (processFile envCapRun (joinPath envCapRun.folder nm)).1) ∧
        (3 < (csvFilesOf envCapRun).length →
          ("\nUsing first 3 CSV files (found "
              ++ toString (csvFilesOf envCapRun).length ++ " total)") ∈ out.messages) :=
  ⟨by decide, by decide, by decide, rfl,
   c4_sheet_cap envCapRun (by decide) (by decide) (by decide) rfl⟩
